import Mathlib

/-!
Verification development for the brush-palette Foundry VTT module
(`src/scripts/module.mjs`, with `BrushPalette.mjs` appended, and the two
`module.mjs` variants in `src/unnamed/part_000`).

The module keeps one mutable record of drawing parameters (the brush),
applies it to newly created drawings through host extension points, mirrors
it into the host setting `core.defaultDrawingConfig` (with a re-entrancy
guard flag in the guard variant), and manages named presets and a saved
window position.

The embedding models JavaScript values and the exact coercions the source
uses (`Number(x)`, `x || d`, `x ?? d`, `Math.max`, `>=`, `===`), including
NaN and the infinities, so that the behaviour of expressions such as
`Number(brush.fillAlpha) ?? 0.5` (whose `?? 0.5` can never fire, because
`Number` never returns null or undefined) is reproduced faithfully.
-/

/-- A JavaScript number: NaN, the two infinities, or a finite value.
Finite values are modelled as rationals; every numeric literal and every
arithmetic step performed by this module stays inside the rationals, so no
floating-point rounding is observable in the embedded code paths. -/
inductive JSNum where
  | nan : JSNum
  | posInf : JSNum
  | negInf : JSNum
  | fin : ℚ → JSNum
deriving DecidableEq

/-- A JavaScript value of the shapes the module stores in its records:
undefined, null, a number, a string, or a boolean. -/
inductive JSVal where
  | undef : JSVal
  | null : JSVal
  | num : JSNum → JSVal
  | str : String → JSVal
  | bool : Bool → JSVal
deriving DecidableEq

namespace JSNum

/-- Truthiness of a number: NaN and 0 are falsy, everything else truthy. -/
def truthy : JSNum → Bool
  | .nan => false
  | .fin q => decide (q ≠ 0)
  | _ => true

/-- `a || b` on numbers (used after a `Number(...)` coercion). -/
def orElse (a b : JSNum) : JSNum :=
  if a.truthy then a else b

/-- JavaScript `Math.max` on two arguments: NaN-propagating. -/
def jsMax : JSNum → JSNum → JSNum
  | .nan, _ => .nan
  | _, .nan => .nan
  | .posInf, _ => .posInf
  | _, .posInf => .posInf
  | .negInf, y => y
  | x, .negInf => x
  | .fin a, .fin b => .fin (max a b)

/-- JavaScript `>=` on numbers: false whenever NaN is involved. -/
def jsGe : JSNum → JSNum → Bool
  | .nan, _ => false
  | _, .nan => false
  | .posInf, _ => true
  | _, .posInf => false
  | _, .negInf => true
  | .negInf, _ => false
  | .fin a, .fin b => decide (b ≤ a)

/-- JavaScript `===` on numbers: NaN is equal to nothing, itself included. -/
def strictEq : JSNum → JSNum → Bool
  | .nan, _ => false
  | _, .nan => false
  | .posInf, .posInf => true
  | .negInf, .negInf => true
  | .fin a, .fin b => decide (a = b)
  | _, _ => false

end JSNum

/-- Strip leading and trailing whitespace from a character list. -/
def trimChars (cs : List Char) : List Char :=
  ((cs.dropWhile Char.isWhitespace).reverse.dropWhile Char.isWhitespace).reverse

/-- JavaScript `String.prototype.trim`. -/
def jsTrim (s : String) : String :=
  String.mk (trimChars s.data)

/-- Digit value of a decimal digit character. -/
def digitVal (c : Char) : Option ℕ :=
  if c.isDigit then some (c.toNat - 48) else none

/-- Read a run of decimal digits as a natural number (any non-digit makes
the run invalid). -/
def digitsToNat (cs : List Char) : Option ℕ :=
  cs.foldl
    (fun acc c =>
      match acc, digitVal c with
      | some n, some d => some (n * 10 + d)
      | _, _ => none)
    (some 0)

/-- Split a character list at every `'.'`. -/
def splitDot : List Char → List (List Char)
  | [] => [[]]
  | c :: rest =>
    match splitDot rest with
    | [] => [[]]
    | g :: gs => if c = '.' then [] :: g :: gs else (c :: g) :: gs

/-- An unsigned decimal literal: digits, optionally with one decimal point
(`"12"`, `"12."`, `"12.5"`, `".5"`). -/
def parseUnsignedDecimal (cs : List Char) : Option ℚ :=
  match splitDot cs with
  | [intPart] =>
    if intPart.isEmpty then none
    else (digitsToNat intPart).map (fun n => (n : ℚ))
  | [intPart, fracPart] =>
    if intPart.isEmpty && fracPart.isEmpty then none
    else
      let ip : Option ℕ :=
        if intPart.isEmpty then some 0 else digitsToNat intPart
      let fp : Option (ℕ × ℕ) :=
        if fracPart.isEmpty then some (0, 0)
        else (digitsToNat fracPart).map (fun n => (n, fracPart.length))
      match ip, fp with
      | some i, some (f, k) => some ((i : ℚ) + (f : ℚ) / (10 : ℚ) ^ k)
      | _, _ => none
  | _ => none

/-- JavaScript string-to-number coercion for the decimal subset: the empty
or all-whitespace string is 0, `"Infinity"` forms are infinite, a signed
decimal literal is its value, and every other string (including the hex and
exponent forms this module never produces) is mapped to NaN. -/
def jsStringToNumber (s : String) : JSNum :=
  match trimChars s.data with
  | [] => .fin 0
  | t =>
    if t = "Infinity".data || t = "+Infinity".data then .posInf
    else if t = "-Infinity".data then .negInf
    else
      match t with
      | '-' :: body =>
        match parseUnsignedDecimal body with
        | some q => .fin (-q)
        | none => .nan
      | '+' :: body =>
        match parseUnsignedDecimal body with
        | some q => .fin q
        | none => .nan
      | body =>
        match parseUnsignedDecimal body with
        | some q => .fin q
        | none => .nan

namespace JSVal

/-- JavaScript `Number(v)` coercion. -/
def toNumber : JSVal → JSNum
  | .undef => .nan
  | .null => .fin 0
  | .num n => n
  | .str s => jsStringToNumber s
  | .bool b => .fin (if b then 1 else 0)

/-- Truthiness of a value. -/
def truthy : JSVal → Bool
  | .undef => false
  | .null => false
  | .num n => n.truthy
  | .str s => decide (s ≠ "")
  | .bool b => b

/-- Nullish test, the condition under which `x ?? d` yields `d`. -/
def nullish : JSVal → Bool
  | .undef => true
  | .null => true
  | _ => false

/-- `a || b` on values. -/
def orElse (a b : JSVal) : JSVal :=
  if a.truthy then a else b

/-- `a ?? b` on values. -/
def coalesce (a b : JSVal) : JSVal :=
  if a.nullish then b else a

/-- JavaScript `===` on values (no coercion across types). -/
def strictEq : JSVal → JSVal → Bool
  | .num a, .num b => a.strictEq b
  | .undef, .undef => true
  | .null, .null => true
  | .str a, .str b => decide (a = b)
  | .bool a, .bool b => a = b
  | _, _ => false

end JSVal

/-- `true` exactly when the value is a finite number in `[lo, hi]`; NaN,
the infinities and non-numbers all fail. Used to state range membership
claims about brush fields. -/
def isFiniteNumIn (v : JSVal) (lo hi : ℚ) : Bool :=
  match v with
  | .num (.fin q) => decide (lo ≤ q ∧ q ≤ hi)
  | _ => false

/-- `true` exactly when the value is a number (not NaN) that is `>= q` in
JavaScript's ordering. -/
def numGeV (v : JSVal) (q : ℚ) : Bool :=
  match v with
  | .num n => n.jsGe (.fin q)
  | _ => false

/-- The brush record: the module's shared mutable drawing-parameter state
(`export let brush` in `module.mjs` / `part_000`). Each field may hold any
JavaScript value, since the record is overwritten wholesale from persisted
settings. -/
structure Brush where
  strokeColor : JSVal
  strokeWidth : JSVal
  strokeAlpha : JSVal
  strokeStyle : JSVal
  fillType : JSVal
  fillColor : JSVal
  fillAlpha : JSVal
  bezierFactor : JSVal
deriving DecidableEq

/-- `DEFAULT_BRUSH` from the source. -/
def DEFAULT_BRUSH : Brush where
  strokeColor := .str "#000000"
  strokeWidth := .num (.fin 8)
  strokeAlpha := .num (.fin 1)
  strokeStyle := .str "solid"
  fillType := .num (.fin 0)
  fillColor := .str "#ffffff"
  fillAlpha := .num (.fin (1 / 2))
  bezierFactor := .num (.fin 0)

/-- `_validateBrush` (identical in `module.mjs` lines 311-320 and
`part_000` lines 278-287), assignment by assignment:
`strokeWidth = Math.max(1, Number(strokeWidth) || 8)`;
`strokeAlpha = Math.max(0.1, Number(strokeAlpha) || 1)`;
`strokeColor = strokeColor || "#000000"`;
`fillType = Number(fillType) ?? 0`; `fillAlpha = Number(fillAlpha) ?? 0.5`;
`fillColor = fillColor || "#ffffff"`;
`bezierFactor = Number(bezierFactor) ?? 0`;
`strokeStyle = strokeStyle || "solid"`. `Number(x)` always returns a
number, never null or undefined, so the three `?? d` fallbacks can never
fire: the embedding keeps the bare coercion. -/
def validateBrush (b : Brush) : Brush where
  strokeWidth := .num (JSNum.jsMax (.fin 1) (b.strokeWidth.toNumber.orElse (.fin 8)))
  strokeAlpha := .num (JSNum.jsMax (.fin (1 / 10)) (b.strokeAlpha.toNumber.orElse (.fin 1)))
  strokeColor := b.strokeColor.orElse (.str "#000000")
  fillType := .num b.fillType.toNumber
  fillAlpha := .num b.fillAlpha.toNumber
  fillColor := b.fillColor.orElse (.str "#ffffff")
  bezierFactor := .num b.bezierFactor.toNumber
  strokeStyle := b.strokeStyle.orElse (.str "solid")

/-- `STROKE_DASH_PATTERNS[style]` lookup, `part_000` values (`dotted` is
`[4, 8]`, `dashed` is `[18, 3]`); `solid` maps to null and looking up any
other key yields undefined, so both become `none` after the source's
`|| null`. -/
def strokeDashLookup (style : JSVal) : Option (List ℚ) :=
  match style with
  | .str "dotted" => some [4, 8]
  | .str "dashed" => some [18, 3]
  | _ => none

/-- The update applied to a new drawing by the `preCreateDrawing` hook
(`part_000` lines 175-212); the numeric logic is line-for-line the same in
the `_getNewDrawingData` wrapper of `module.mjs` lines 177-213. `dashFlag`
is the `flags["advanced-drawing-tools"].lineStyle.dash` value when one is
set. -/
structure DrawingUpdateData where
  strokeColor : JSVal
  strokeWidth : JSNum
  strokeAlpha : JSNum
  fillType : JSNum
  fillColor : JSVal
  fillAlpha : JSNum
  bezierFactor : JSNum
  dashFlag : Option (List ℚ)
deriving DecidableEq

/-- Body of the `preCreateDrawing` hook (`part_000` lines 176-211):
`strokeWidth = Math.max(1, Number(brush.strokeWidth) || 8)`;
`strokeAlpha = Math.max(0.1, Number(brush.strokeAlpha) || 1)`;
`fillType = Number(brush.fillType) ?? 0` (the `?? 0` never fires);
`fillAlpha = Number(brush.fillAlpha) ?? 0.5` (likewise);
`bezierFactor = Number(brush.bezierFactor) ?? 0` (likewise);
`if (fillType === 2 && !data.texture) fillType = 1`; then the update
record uses `brush.strokeColor || "#000000"`, `brush.fillColor ||
"#ffffff"`, `fillAlpha >= 0 ? fillAlpha : 0.5` and `bezierFactor >= 0 ?
bezierFactor : 0`. `hasTexture` is the truthiness of `data.texture`,
`adtActive` whether the advanced-drawing-tools module is active (the hook
only attaches dash flags in that case). -/
def preCreateDrawingData (b : Brush) (hasTexture adtActive : Bool) : DrawingUpdateData :=
  let strokeWidth := JSNum.jsMax (.fin 1) (b.strokeWidth.toNumber.orElse (.fin 8))
  let strokeAlpha := JSNum.jsMax (.fin (1 / 10)) (b.strokeAlpha.toNumber.orElse (.fin 1))
  let fillType0 := b.fillType.toNumber
  let fillType := if fillType0.strictEq (.fin 2) && !hasTexture then .fin 1 else fillType0
  let fillAlpha := b.fillAlpha.toNumber
  let bezierFactor := b.bezierFactor.toNumber
  { strokeColor := b.strokeColor.orElse (.str "#000000")
    strokeWidth := strokeWidth
    strokeAlpha := strokeAlpha
    fillType := fillType
    fillColor := b.fillColor.orElse (.str "#ffffff")
    fillAlpha := if fillAlpha.jsGe (.fin 0) then fillAlpha else .fin (1 / 2)
    bezierFactor := if bezierFactor.jsGe (.fin 0) then bezierFactor else .fin 0
    dashFlag := if adtActive then strokeDashLookup b.strokeStyle else none }

/-- The `core.defaultDrawingConfig` object built by the guard variant of
`_updateCoreDrawingConfig` (`part_000` lines 455-504). `flags` is `none`
when advanced-drawing-tools is inactive (no `flags` key is written) and
`some d` when it is active, where `d` is the dash pattern or `none` for
the explicit `dash: null`. -/
structure CoreDrawingConfig where
  strokeColor : JSVal
  strokeWidth : JSNum
  strokeAlpha : JSNum
  fillType : JSNum
  fillColor : JSVal
  fillAlpha : JSNum
  bezierFactor : JSNum
  flags : Option (Option (List ℚ))
deriving DecidableEq

/-- Config construction in the guard variant (`part_000` lines 460-492):
`fillType = Number(brush.fillType) ?? 0` (the `?? 0` never fires);
`if (fillType === 2) fillType = 1`;
`strokeWidth: Math.max(1, brush.strokeWidth || 8)` (note: `||` on the raw
value, `Math.max` then coerces);
`strokeAlpha: Math.max(0.1, Number(brush.strokeAlpha) || 1)`;
`fillAlpha: Number(brush.fillAlpha) >= 0 ? Number(brush.fillAlpha) : 0.5`;
`bezierFactor: Number(brush.bezierFactor) >= 0 ? ... : 0`; dash flags when
advanced-drawing-tools is active. -/
def mkCoreConfigGuard (b : Brush) (adtActive : Bool) : CoreDrawingConfig :=
  let fillType0 := b.fillType.toNumber
  let fillType := if fillType0.strictEq (.fin 2) then .fin 1 else fillType0
  { strokeColor := b.strokeColor.orElse (.str "#000000")
    strokeWidth := JSNum.jsMax (.fin 1) (b.strokeWidth.orElse (.num (.fin 8))).toNumber
    strokeAlpha := JSNum.jsMax (.fin (1 / 10)) (b.strokeAlpha.toNumber.orElse (.fin 1))
    fillType := fillType
    fillColor := b.fillColor.orElse (.str "#ffffff")
    fillAlpha :=
      if b.fillAlpha.toNumber.jsGe (.fin 0) then b.fillAlpha.toNumber else .fin (1 / 2)
    bezierFactor :=
      if b.bezierFactor.toNumber.jsGe (.fin 0) then b.bezierFactor.toNumber else .fin 0
    flags := if adtActive then some (strokeDashLookup b.strokeStyle) else none }

/-- The config built by `_updateCoreDrawingConfig` in `module.mjs`
(lines 424-432): stroke and fill alpha forced to 1, fillType forced to 1,
and `bezierFactor: brush.bezierFactor ?? 0` applied to the raw value, so
`bezierFactor` here keeps whatever non-nullish value the brush holds. -/
structure CoreDrawingConfigMain where
  strokeColor : JSVal
  strokeWidth : JSNum
  strokeAlpha : JSNum
  fillType : JSNum
  fillColor : JSVal
  fillAlpha : JSNum
  bezierFactor : JSVal
deriving DecidableEq

/-- Config construction in `module.mjs` lines 424-432. -/
def mkCoreConfigMain (b : Brush) : CoreDrawingConfigMain where
  strokeColor := b.strokeColor.orElse (.str "#000000")
  strokeWidth := JSNum.jsMax (.fin 1) (b.strokeWidth.orElse (.num (.fin 8))).toNumber
  strokeAlpha := .fin 1
  fillType := .fin 1
  fillColor := b.fillColor.orElse (.str "#ffffff")
  fillAlpha := .fin 1
  bezierFactor := b.bezierFactor.coalesce (.num (.fin 0))

/-- Outcome of `await game.settings.set("core", "defaultDrawingConfig", ...)`:
the host write either resolves or rejects; `rejects` selects which. -/
def settingsSetResult (rejects : Bool) : Except String Unit :=
  if rejects then .error "settings.set rejected" else .ok ()

/-- Guard variant of `_updateCoreDrawingConfig` (`part_000` lines 455-504)
as a function of the brush, whether advanced-drawing-tools is active, and
whether the host write rejects. The whole body is inside `try { ... }
catch (e) { _selfUpdatingCoreConfig = false; console.warn(...) }`, so the
function always returns normally: the result is `.ok` of (the brush, the
final guard-flag value, the config if the write succeeded). The source
body never assigns to `brush`, and both the success path and the catch
clause end with `_selfUpdatingCoreConfig = false`. -/
def updateCoreDrawingConfigGuard (b : Brush) (adtActive rejects : Bool) :
    Except String (Brush × Bool × Option CoreDrawingConfig) :=
  let cfg := mkCoreConfigGuard b adtActive
  match settingsSetResult rejects with
  | .ok _ => .ok (b, false, some cfg)
  | .error _ => .ok (b, false, none)

/-- `module.mjs` variant of `_updateCoreDrawingConfig` (lines 418-441): no
guard flag; the body is wrapped in `try/catch` with a `console.warn` in the
catch clause and never assigns to `brush`. -/
def updateCoreDrawingConfigMain (b : Brush) (rejects : Bool) :
    Except String (Brush × Option CoreDrawingConfigMain) :=
  let cfg := mkCoreConfigMain b
  match settingsSetResult rejects with
  | .ok _ => .ok (b, some cfg)
  | .error _ => .ok (b, none)

/-- One primitive effect of the guard variant's body, in source order:
an assignment to `_selfUpdatingCoreConfig`, the awaited host write, or the
`console.warn` in the catch clause. -/
inductive GuardStep where
  | setGuard : Bool → GuardStep
  | writeCoreConfig : CoreDrawingConfig → GuardStep
  | logWarning : GuardStep

/-- The effect trace of the guard variant (`part_000` lines 494-503) in
source order. On success: set the flag, perform the write, clear the flag.
When the write rejects, control transfers from the `await` to the catch
clause, which clears the flag and logs. -/
def updateCoreGuardTrace (b : Brush) (adtActive rejects : Bool) : List GuardStep :=
  let cfg := mkCoreConfigGuard b adtActive
  if rejects then
    [.setGuard true, .writeCoreConfig cfg, .setGuard false, .logWarning]
  else
    [.setGuard true, .writeCoreConfig cfg, .setGuard false]

/-- Run a trace from an initial flag value, returning the final flag value
and the flag value observed at each host write, in order. -/
def runGuardFlag : Bool → List GuardStep → Bool × List Bool
  | f, [] => (f, [])
  | _, .setGuard v :: rest => runGuardFlag v rest
  | f, .writeCoreConfig _ :: rest =>
    let r := runGuardFlag f rest
    (r.1, f :: r.2)
  | f, .logWarning :: rest => runGuardFlag f rest

/-- The parsed `core.defaultDrawingConfig` value a `updateSetting`
notification carries; each property may be any JavaScript value, `undef`
standing for an absent property. -/
structure ExtDrawingConfig where
  strokeColor : JSVal
  strokeAlpha : JSVal
  fillColor : JSVal
  fillAlpha : JSVal
deriving DecidableEq

/-- `if (newConfig.strokeColor && newConfig.strokeColor !== brush.strokeColor)
brush.strokeColor = newConfig.strokeColor;` (`part_000` lines 329-332). -/
def syncStrokeColor (cfg : ExtDrawingConfig) (b : Brush) : Brush :=
  if cfg.strokeColor.truthy && !(cfg.strokeColor.strictEq b.strokeColor) then
    { b with strokeColor := cfg.strokeColor }
  else b

/-- `if (newConfig.strokeAlpha !== undefined && newConfig.strokeAlpha !==
brush.strokeAlpha) brush.strokeAlpha = Math.max(0.05,
Number(newConfig.strokeAlpha) || 1);` (`part_000` lines 333-339). -/
def syncStrokeAlpha (cfg : ExtDrawingConfig) (b : Brush) : Brush :=
  let v := JSVal.num (JSNum.jsMax (.fin (1 / 20)) (cfg.strokeAlpha.toNumber.orElse (.fin 1)))
  if !(cfg.strokeAlpha.strictEq .undef) && !(cfg.strokeAlpha.strictEq b.strokeAlpha) then
    { b with strokeAlpha := v }
  else b

/-- `if (newConfig.fillColor && newConfig.fillColor !== brush.fillColor)
brush.fillColor = newConfig.fillColor;` (`part_000` lines 342-345). -/
def syncFillCol (cfg : ExtDrawingConfig) (b : Brush) : Brush :=
  if cfg.fillColor.truthy && !(cfg.fillColor.strictEq b.fillColor) then
    { b with fillColor := cfg.fillColor }
  else b

/-- `if (newConfig.fillAlpha !== undefined && newConfig.fillAlpha !==
brush.fillAlpha) brush.fillAlpha = Math.max(0, Number(newConfig.fillAlpha)
|| 0);` (`part_000` lines 346-352). -/
def syncFillAlpha (cfg : ExtDrawingConfig) (b : Brush) : Brush :=
  let v := JSVal.num (JSNum.jsMax (.fin 0) (cfg.fillAlpha.toNumber.orElse (.fin 0)))
  if !(cfg.fillAlpha.strictEq .undef) && !(cfg.fillAlpha.strictEq b.fillAlpha) then
    { b with fillAlpha := v }
  else b

/-- Effect on the brush record of the `updateSetting` hook handler
(`part_000` lines 309-373). The handler returns without touching the brush
unless the key is `core.defaultDrawingConfig`, the module is not itself
mid-write (`_selfUpdatingCoreConfig`), and the drawings tool is active;
`value = none` models a `JSON.parse` failure (caught, logged) or a
non-object value (early return). Otherwise the four sync steps run in
source order. The `changed` branch afterwards only persists the brush and
re-renders the palette; it assigns to no brush field. -/
def updateSettingBrush (b : Brush) (selfUpdating drawingActive : Bool)
    (key : String) (value : Option ExtDrawingConfig) : Brush :=
  if key ≠ "core.defaultDrawingConfig" then b
  else if selfUpdating then b
  else if !drawingActive then b
  else
    match value with
    | none => b
    | some cfg => syncFillAlpha cfg (syncFillCol cfg (syncStrokeAlpha cfg (syncStrokeColor cfg b)))

/-- A preset record as built by `BrushPalette.#savePreset`
(`module.mjs`/`BrushPalette.mjs` lines 875-885): the trimmed name plus a
snapshot of the eight brush fields. -/
structure Preset where
  name : String
  strokeColor : JSVal
  strokeWidth : JSVal
  strokeAlpha : JSVal
  strokeStyle : JSVal
  fillType : JSVal
  fillColor : JSVal
  fillAlpha : JSVal
  bezierFactor : JSVal
deriving DecidableEq

/-- The preset literal of `#savePreset`: `{ name, strokeColor:
brush.strokeColor, ..., bezierFactor: brush.bezierFactor }`. -/
def mkPreset (name : String) (b : Brush) : Preset where
  name := name
  strokeColor := b.strokeColor
  strokeWidth := b.strokeWidth
  strokeAlpha := b.strokeAlpha
  strokeStyle := b.strokeStyle
  fillType := b.fillType
  fillColor := b.fillColor
  fillAlpha := b.fillAlpha
  bezierFactor := b.bezierFactor

/-- `BrushPalette.#savePreset` (lines 867-894): `name =
nameInput?.value?.trim()` (`inputValue = none` models a missing input
element); an empty trimmed name warns and returns with the list unchanged;
otherwise the preset is pushed onto the end of the list. -/
def savePresetAction (inputValue : Option String) (b : Brush)
    (presets : List Preset) : List Preset :=
  match inputValue with
  | none => presets
  | some raw =>
    let name := jsTrim raw
    if name = "" then presets else presets ++ [mkPreset name b]

/-- `BrushPalette.#deletePreset` (lines 856-862): `presets.splice(index, 1)`
at a natural-number index (for an in-range index, `splice(i, 1)` removes
exactly the element at `i`, like `List.eraseIdx`; out-of-range indices
remove nothing in both). -/
def deletePresetAction (presets : List Preset) (index : ℕ) : List Preset :=
  presets.eraseIdx index

/-- `BrushPalette.#loadPreset` (lines 831-851): each brush field is set to
`preset.field ?? brush.field`, in source order (strokeColor, strokeWidth,
strokeAlpha, fillType, fillColor, fillAlpha, bezierFactor, strokeStyle);
the assignments are independent, so a record literal is faithful. The
subsequent `saveBrushSettings()` and `render()` assign to no brush
field. -/
def loadPresetBrush (p : Preset) (b : Brush) : Brush where
  strokeColor := p.strokeColor.coalesce b.strokeColor
  strokeWidth := p.strokeWidth.coalesce b.strokeWidth
  strokeAlpha := p.strokeAlpha.coalesce b.strokeAlpha
  fillType := p.fillType.coalesce b.fillType
  fillColor := p.fillColor.coalesce b.fillColor
  fillAlpha := p.fillAlpha.coalesce b.fillAlpha
  bezierFactor := p.bezierFactor.coalesce b.bezierFactor
  strokeStyle := p.strokeStyle.coalesce b.strokeStyle

/-- A saved palette window position (`#_onPosition` persists `{left, top}`
as numbers). -/
structure PalettePosition where
  left : ℚ
  top : ℚ
deriving DecidableEq

/-- `BrushPalette.#isPositionInViewport` (lines 584-594) with `margin = 50`:
`pos.left >= -margin && pos.top >= -margin && pos.left < vw - margin &&
pos.top < vh - margin`, where `vw`/`vh` are `window.innerWidth` and
`window.innerHeight`. -/
def isPositionInViewport (vw vh : ℚ) (pos : PalettePosition) : Bool :=
  decide (-50 ≤ pos.left) && decide (-50 ≤ pos.top) &&
    decide (pos.left < vw - 50) && decide (pos.top < vh - 50)

/-- The position-restore step of `BrushPalette._onRender` (lines 607-614):
`if (savedPos && this.#isPositionInViewport(savedPos)) this.setPosition(...)`.
The result is `some p` when `setPosition` is called with the saved
position and `none` when it is not (the palette keeps its default
position). -/
def onRenderRestorePosition (vw vh : ℚ) (saved : Option PalettePosition) :
    Option PalettePosition :=
  match saved with
  | some p => if isPositionInViewport vw vh p then some p else none
  | none => none

/-- A concrete prior brush state for the `_validateBrush` counterexample:
`fillAlpha` is missing (undefined), `strokeAlpha` holds 5, and
`bezierFactor` holds -3. -/
def cexValidateBrush : Brush :=
  { DEFAULT_BRUSH with
      strokeAlpha := .num (.fin 5)
      fillAlpha := .undef
      bezierFactor := .num (.fin (-3)) }

/-- The first default preset, `DEFAULT_PRESETS[0]` ("Fine Pen"). -/
def finePenPreset : Preset where
  name := "Fine Pen"
  strokeColor := .str "#000000"
  strokeWidth := .num (.fin 2)
  strokeAlpha := .num (.fin 1)
  strokeStyle := .str "solid"
  fillType := .num (.fin 0)
  fillColor := .str "#ffffff"
  fillAlpha := .num (.fin (1 / 2))
  bezierFactor := .num (.fin (3 / 10))

/-- A concrete preset list used by witnesses. -/
def presetsExample : List Preset :=
  [finePenPreset, mkPreset "Marker" DEFAULT_BRUSH, mkPreset "Area Fill" DEFAULT_BRUSH]

/- ------------------------------------------------------------------ -/
/- Helper lemmas -/

/-- `Math.max(q, Number(x) || r)` is always a number that is `>= q`: the
`||` fallback replaces NaN (and 0), and `Math.max` against a finite first
argument never returns less than it. -/
theorem jsGe_jsMax_fin_orElse (q r : ℚ) (x : JSNum) :
    (JSNum.jsMax (.fin q) (x.orElse (.fin r))).jsGe (.fin q) = true := by
  cases x with
  | nan => simp [JSNum.orElse, JSNum.truthy, JSNum.jsMax, JSNum.jsGe, le_max_left]
  | posInf => simp [JSNum.orElse, JSNum.truthy, JSNum.jsMax, JSNum.jsGe]
  | negInf => simp [JSNum.orElse, JSNum.truthy, JSNum.jsMax, JSNum.jsGe]
  | fin a =>
    by_cases h : a = 0 <;>
      simp [JSNum.orElse, JSNum.truthy, h, JSNum.jsMax, JSNum.jsGe, le_max_left]

/-- `x >= 0 ? x : c` is `>= 0` in JavaScript whenever the constant `c`
is a nonnegative rational. -/
theorem jsGe_ite_nonneg (x : JSNum) (c : ℚ) (hc : 0 ≤ c) :
    (if x.jsGe (.fin 0) then x else .fin c).jsGe (.fin 0) = true := by
  split
  · assumption
  · simp [JSNum.jsGe, hc]

/-- The four `updateSetting` sync assignments touch none of strokeWidth,
strokeStyle, fillType, bezierFactor. -/
theorem sync_chain_frame (cfg : ExtDrawingConfig) (b : Brush) :
    (syncFillAlpha cfg (syncFillCol cfg (syncStrokeAlpha cfg (syncStrokeColor cfg b)))).strokeWidth
        = b.strokeWidth ∧
      (syncFillAlpha cfg (syncFillCol cfg (syncStrokeAlpha cfg (syncStrokeColor cfg b)))).strokeStyle
        = b.strokeStyle ∧
      (syncFillAlpha cfg (syncFillCol cfg (syncStrokeAlpha cfg (syncStrokeColor cfg b)))).fillType
        = b.fillType ∧
      (syncFillAlpha cfg (syncFillCol cfg (syncStrokeAlpha cfg (syncStrokeColor cfg b)))).bezierFactor
        = b.bezierFactor := by
  simp only [syncStrokeColor, syncStrokeAlpha, syncFillCol, syncFillAlpha]
  split_ifs <;> simp_all

/- ------------------------------------------------------------------ -/
/- Claim theorems -/

/-- C1: whenever the module writes `core.defaultDrawingConfig` through the
guard variant of `_updateCoreDrawingConfig`, the guard flag
`_selfUpdatingCoreConfig` is observed `true` at the write and is `false`
when the function finishes, whether or not the write rejects and whatever
the flag held before; and the `updateSetting` handler leaves every field
of the brush record unchanged whenever the flag is set. -/
theorem guard_flag_protocol :
    (∀ (b : Brush) (adtActive rejects f0 : Bool),
        runGuardFlag f0 (updateCoreGuardTrace b adtActive rejects) = (false, [true])) ∧
      (∀ (b : Brush) (drawingActive : Bool) (key : String)
          (value : Option ExtDrawingConfig),
        updateSettingBrush b true drawingActive key value = b) := by
  constructor
  · intro b adtActive rejects f0
    cases rejects <;> rfl
  · intro b drawingActive key value
    by_cases hk : key = "core.defaultDrawingConfig" <;>
      simp [updateSettingBrush, hk]

/-- C2: for every brush state (missing, non-numeric and NaN fields
included), the drawing data applied at drawing-creation time has a
strokeWidth that is a number `>= 1`, a strokeAlpha that is a number
`>= 0.1`, a fillType equal to 2 (pattern) only when the drawing data has
a texture, and fillAlpha and bezierFactor that are numbers `>= 0`. -/
theorem preCreateDrawing_applied_valid (b : Brush) (hasTexture adtActive : Bool) :
    (preCreateDrawingData b hasTexture adtActive).strokeWidth.jsGe (.fin 1) = true ∧
      (preCreateDrawingData b hasTexture adtActive).strokeAlpha.jsGe (.fin (1 / 10)) = true ∧
      ((preCreateDrawingData b hasTexture adtActive).fillType = .fin 2 → hasTexture = true) ∧
      (preCreateDrawingData b hasTexture adtActive).fillAlpha.jsGe (.fin 0) = true ∧
      (preCreateDrawingData b hasTexture adtActive).bezierFactor.jsGe (.fin 0) = true := by
  refine ⟨?_, ?_, ?_, ?_, ?_⟩
  · exact jsGe_jsMax_fin_orElse 1 8 _
  · exact jsGe_jsMax_fin_orElse (1 / 10) 1 _
  · intro h
    cases hasTexture with
    | true => rfl
    | false =>
      exfalso
      by_cases hf : (b.fillType.toNumber.strictEq (.fin 2)) = true
      · have h1 : (preCreateDrawingData b false adtActive).fillType = .fin 1 := by
          simp [preCreateDrawingData, hf]
        rw [h1] at h
        have : (1 : ℚ) = 2 := by injection h
        norm_num at this
      · have h0 : (preCreateDrawingData b false adtActive).fillType = b.fillType.toNumber := by
          simp [preCreateDrawingData, hf]
        rw [h0] at h
        rw [h] at hf
        simp [JSNum.strictEq] at hf
  · exact jsGe_ite_nonneg _ (1 / 2) (by norm_num)
  · exact jsGe_ite_nonneg _ 0 le_rfl

/-- C3 counterexample: starting from `cexValidateBrush` (fillAlpha
missing, strokeAlpha 5, bezierFactor -3), `_validateBrush` leaves
`fillAlpha = NaN` — in `Number(brush.fillAlpha) ?? 0.5` the coercion
yields NaN, which is not nullish, so the `?? 0.5` fallback never fires —
keeps `strokeAlpha = 5`, above every valid alpha range, and keeps
`bezierFactor = -3`, a negative value no clamping removes. -/
theorem validateBrush_fillAlpha_nan :
    (validateBrush cexValidateBrush).fillAlpha = .num .nan ∧
      isFiniteNumIn (validateBrush cexValidateBrush).fillAlpha 0 1 = false ∧
      (validateBrush cexValidateBrush).strokeAlpha = .num (.fin 5) ∧
      (validateBrush cexValidateBrush).bezierFactor = .num (.fin (-3)) := by
  refine ⟨rfl, rfl, ?_, rfl⟩
  show JSVal.num (JSNum.jsMax (.fin (1 / 10))
    ((JSVal.toNumber (.num (.fin 5))).orElse (.fin 1))) = .num (.fin 5)
  norm_num [JSVal.toNumber, JSNum.orElse, JSNum.truthy, JSNum.jsMax]

/-- C3 (amended): after `_validateBrush` runs, for every possible prior
brush value, strokeWidth is a number `>= 1` and strokeAlpha is a number
`>= 0.1`; fillAlpha and bezierFactor are only coerced with `Number(...)`
(the `?? default` fallback never fires), so they are numbers but may be
NaN or outside their valid ranges. -/
theorem validateBrush_partial_clamp (b : Brush) :
    numGeV (validateBrush b).strokeWidth 1 = true ∧
      numGeV (validateBrush b).strokeAlpha (1 / 10) = true ∧
      (validateBrush b).fillAlpha = .num b.fillAlpha.toNumber ∧
      (validateBrush b).bezierFactor = .num b.bezierFactor.toNumber := by
  refine ⟨?_, ?_, rfl, rfl⟩
  · exact jsGe_jsMax_fin_orElse 1 8 _
  · exact jsGe_jsMax_fin_orElse (1 / 10) 1 _

/-- C4: evaluation at the failing input. For a brush whose `fillType` is
undefined (so `Number(brush.fillType)` is NaN), the drawing-creation hook
applies `fillType = NaN` to the new drawing instead of the default 0: the
`?? 0` in `Number(brush.fillType) ?? 0` never fires, because `Number`
never returns null or undefined. -/
theorem preCreateDrawing_fillType_nan :
    (preCreateDrawingData { DEFAULT_BRUSH with fillType := JSVal.undef } false false).fillType
        = .nan ∧
      (preCreateDrawingData { DEFAULT_BRUSH with fillType := JSVal.undef } false false).fillType
        ≠ .fin 0 :=
  ⟨rfl, fun h => JSNum.noConfusion h⟩

/-- C5: when the host write of `core.defaultDrawingConfig` rejects (and
also when it resolves), both variants of `_updateCoreDrawingConfig` return
normally — the exception is caught inside the function — with the brush
record unchanged, and the guard variant finishes with
`_selfUpdatingCoreConfig = false`. -/
theorem updateCoreConfig_swallows_rejection (b : Brush) (adtActive rejects : Bool) :
    updateCoreDrawingConfigGuard b adtActive rejects
        = .ok (b, false, if rejects then none else some (mkCoreConfigGuard b adtActive)) ∧
      updateCoreDrawingConfigMain b rejects
        = .ok (b, if rejects then none else some (mkCoreConfigMain b)) := by
  cases rejects <;> exact ⟨rfl, rfl⟩

/-- C6: saving a preset with a name that is nonempty after trimming
appends the snapshot of the current brush to the end of the list and
leaves every existing preset in place and in order (whatever the existing
names are, duplicates included); an empty or whitespace-only name leaves
the list unchanged. -/
theorem savePreset_appends (raw : String) (b : Brush) (presets : List Preset) :
    (jsTrim raw ≠ "" →
        savePresetAction (some raw) b presets = presets ++ [mkPreset (jsTrim raw) b]) ∧
      (jsTrim raw = "" → savePresetAction (some raw) b presets = presets) := by
  constructor <;> intro h <;> simp [savePresetAction, h]

/-- C7: deleting the preset at an in-range index removes exactly that
element: the length drops by one, entries before the index are unchanged,
and entries from the index on shift down by one (so relative order is
preserved). -/
theorem deletePreset_removes (presets : List Preset) (i : ℕ) (h : i < presets.length) :
    (deletePresetAction presets i).length = presets.length - 1 ∧
      (∀ j, j < i → (deletePresetAction presets i)[j]? = presets[j]?) ∧
      (∀ j, i ≤ j → (deletePresetAction presets i)[j]? = presets[j + 1]?) := by
  refine ⟨List.length_eraseIdx_of_lt h, fun j hj => ?_, fun j hj => ?_⟩
  · exact List.getElem?_eraseIdx_of_lt presets i j hj
  · exact List.getElem?_eraseIdx_of_ge presets i j hj

/-- C7 witness: deleting index 1 of a three-preset list. -/
theorem deletePreset_removes_witness :
    (deletePresetAction presetsExample 1).length = presetsExample.length - 1 ∧
      (∀ j, j < 1 → (deletePresetAction presetsExample 1)[j]? = presetsExample[j]?) ∧
      (∀ j, 1 ≤ j → (deletePresetAction presetsExample 1)[j]? = presetsExample[j + 1]?) :=
  deletePreset_removes presetsExample 1 (by decide)

/-- C8: on render, a saved palette position is applied exactly when it
lies inside the visible viewport as the module defines it (at most 50
pixels above or left of the origin and at least 50 pixels of window
inside the right and bottom edges); a saved position outside that region
is ignored, and with no saved position nothing is applied. -/
theorem savedPosition_applied_iff (vw vh : ℚ) (p : PalettePosition) :
    (onRenderRestorePosition vw vh (some p) = some p ↔
        (-50 ≤ p.left ∧ -50 ≤ p.top ∧ p.left < vw - 50 ∧ p.top < vh - 50)) ∧
      (isPositionInViewport vw vh p = false →
        onRenderRestorePosition vw vh (some p) = none) ∧
      onRenderRestorePosition vw vh none = none := by
  refine ⟨⟨fun h => ?_, fun hc => ?_⟩, fun hf => ?_, rfl⟩
  · by_cases hv : isPositionInViewport vw vh p = true
    · simpa [isPositionInViewport, and_assoc] using hv
    · simp [onRenderRestorePosition, hv] at h
  · have hv : isPositionInViewport vw vh p = true := by
      simp [isPositionInViewport, hc.1, hc.2.1, hc.2.2.1, hc.2.2.2]
    simp [onRenderRestorePosition, hv]
  · simp [onRenderRestorePosition, hf]

/-- C9: whatever an externally-originated `core.defaultDrawingConfig`
change contains (and indeed for every input), the `updateSetting` handler
leaves strokeWidth, strokeStyle, fillType and bezierFactor of the brush
record unchanged: only strokeColor, strokeAlpha, fillColor and fillAlpha
can be assigned by it. -/
theorem updateSetting_frame (b : Brush) (selfUpdating drawingActive : Bool)
    (key : String) (value : Option ExtDrawingConfig) :
    (updateSettingBrush b selfUpdating drawingActive key value).strokeWidth = b.strokeWidth ∧
      (updateSettingBrush b selfUpdating drawingActive key value).strokeStyle = b.strokeStyle ∧
      (updateSettingBrush b selfUpdating drawingActive key value).fillType = b.fillType ∧
      (updateSettingBrush b selfUpdating drawingActive key value).bezierFactor
        = b.bezierFactor := by
  by_cases hk : key = "core.defaultDrawingConfig"
  · subst hk
    cases selfUpdating with
    | true => exact ⟨rfl, rfl, rfl, rfl⟩
    | false =>
      cases drawingActive with
      | false => exact ⟨rfl, rfl, rfl, rfl⟩
      | true =>
        cases value with
        | none => exact ⟨rfl, rfl, rfl, rfl⟩
        | some cfg =>
          have := sync_chain_frame cfg b
          simpa [updateSettingBrush] using this
  · simp [updateSettingBrush, hk]

/-- C10: for a preset in which all eight brush fields are present (not
nullish, so each `preset.field ?? brush.field` in `#loadPreset` keeps the
preset's value), loading the preset and then saving the brush under the
same name rebuilds a preset record equal to the original. -/
theorem preset_load_save_roundtrip (p : Preset) (b : Brush)
    (h1 : p.strokeColor.nullish = false) (h2 : p.strokeWidth.nullish = false)
    (h3 : p.strokeAlpha.nullish = false) (h4 : p.strokeStyle.nullish = false)
    (h5 : p.fillType.nullish = false) (h6 : p.fillColor.nullish = false)
    (h7 : p.fillAlpha.nullish = false) (h8 : p.bezierFactor.nullish = false) :
    mkPreset p.name (loadPresetBrush p b) = p := by
  cases p with
  | mk name sc sw sa ss ft fc fa bf =>
    simp only [mkPreset, loadPresetBrush, JSVal.coalesce] at *
    simp [h1, h2, h3, h4, h5, h6, h7, h8]

/-- C10 witness: the round trip at the "Fine Pen" default preset. -/
theorem preset_load_save_roundtrip_witness :
    mkPreset "Fine Pen" (loadPresetBrush finePenPreset DEFAULT_BRUSH) = finePenPreset :=
  preset_load_save_roundtrip finePenPreset DEFAULT_BRUSH rfl rfl rfl rfl rfl rfl rfl rfl
